import Mathlib

/-!
Verification development for the DEM_MQTT provisioning firmware
(src/DEM_ESP_MQTT/main/main.c).

The C program is embedded shallowly:

* the NVS "storage" namespace is an association list from key to stored
  string; `load_from_nvs` and `save_to_nvs` mirror the two helpers;
* `read_input` processes the list of bytes actually received on the UART;
* the asynchronous `wifi_connected` flag observed by the bounded poll in
  `attempt_wifi_connect` is an environment `env : Nat -> Bool` giving the
  value of the flag at the k-th evaluation of the loop condition (the
  read in the final return statement is separated from the loop-exit read
  by no suspension point and is modelled as the same observation);
* the side effects of `app_main` (prints, NVS traffic, Wi-Fi driver calls,
  MQTT publishes) are recorded as an `Action` trace.
-/

namespace DemMqtt

/-- The `esp_err_t` values the program distinguishes. -/
inductive EspErr
  | ESP_OK
  | ESP_FAIL
  | ESP_ERR_NVS_NOT_FOUND
deriving DecidableEq, Repr

/-- Contents of the NVS "storage" namespace: key / stored-string pairs. -/
abbrev Store := List (String × String)

/-- The `nvs_get_str` size query: the stored value under a key, if present. -/
def Store.get (st : Store) (key : String) : Option String :=
  st.lookup key

/-- Embedding of `save_to_nvs` (main.c:61): `nvs_set_str` + `nvs_commit`
replaces any previous value stored under `key`. -/
def save_to_nvs (st : Store) (key value : String) : Store :=
  (key, value) :: st.filter (fun p => p.1 != key)

/-- Embedding of `load_from_nvs` (main.c:75).  The first component is the
returned `esp_err_t`, the second the content written into the caller
buffer (`none` = buffer left untouched).  `nvs_get_str` reports
`required_size` = string length + 1 (terminating NUL); the second
`nvs_get_str` call, which fills the buffer, runs only when
`required_size <= max_len`.  Note that when the stored value is too large
the function skips the read but still returns the `ESP_OK` produced by
the size query. -/
def load_from_nvs (st : Store) (key : String) (max_len : Nat) :
    EspErr × Option String :=
  match Store.get st key with
  | none => (.ESP_ERR_NVS_NOT_FOUND, none)
  | some v =>
    if v.length + 1 ≤ max_len then (.ESP_OK, some v) else (.ESP_OK, none)

/-- Terminator bytes recognised by `read_input` (main.c:102): CR or LF. -/
def isTerm (ch : Nat) : Bool := ch == 13 || ch == 10

/-- Backspace bytes recognised by `read_input` (main.c:106): BS or DEL. -/
def isBackspace (ch : Nat) : Bool := ch == 8 || ch == 127

/-- Printable ASCII range accepted by `read_input` (main.c:110). -/
def isPrintable (ch : Nat) : Bool := 32 ≤ ch && ch ≤ 126

/-- Loop body of `read_input` (main.c:99-115) over the incoming byte list.
State: accumulated buffer `buf` (the first `i` cells of the C buffer) and
the bytes echoed back on the UART.  Returns `some (buffer, echo, rest)`
when the loop exits (terminator received, or `len - 1` characters
accumulated) and `none` when the byte stream is exhausted first, in which
case the C loop would still be blocked waiting for bytes.  A backspace
echoes the three bytes `"\b \b"` = `[8, 32, 8]`; an accepted character
echoes `42` (the `*` glyph) when `mask` is set, otherwise itself. -/
def read_input_go (mask : Bool) (len : Nat) :
    List Nat → List Nat → List Nat → Option (List Nat × List Nat × List Nat)
  | buf, echo, [] =>
    if buf.length < len - 1 then none else some (buf, echo, [])
  | buf, echo, ch :: rest =>
    if buf.length < len - 1 then
      if isTerm ch then some (buf, echo ++ [10], rest)
      else if isBackspace ch then
        if 0 < buf.length then
          read_input_go mask len buf.dropLast (echo ++ [8, 32, 8]) rest
        else
          read_input_go mask len buf echo rest
      else if isPrintable ch then
        read_input_go mask len (buf ++ [ch])
          (echo ++ [if mask then 42 else ch]) rest
      else
        read_input_go mask len buf echo rest
    else some (buf, echo, ch :: rest)

/-- Embedding of `read_input` (main.c:92): starts from the zeroed buffer.
The prompt printing is not modelled here; `len` is the byte size of the
caller buffer. -/
def read_input (mask : Bool) (len : Nat) (input : List Nat) :
    Option (List Nat × List Nat × List Nat) :=
  read_input_go mask len [] [] input

/-- Observable side effects of the program, in program order. -/
inductive Action
  | setLinkDown
  | wifiSetConfig (ss pw : String)
  | wifiStart
  | wifiConnect
  | wifiStop
  | nvsSave (key value : String)
  | nvsLoad (key : String) (err : EspErr)
  | printMsg (msg : String)
  | mqttPublish (topic payload : String) (qos : Nat) (retainFlag : Bool)
  | mqttStart (uri : String)
  | readLine (mask : Bool) (result : String)
deriving DecidableEq, Repr

/-- The wait loop of `attempt_wifi_connect` (main.c:170-174).
`env k` is the value of `wifi_connected` at the k-th evaluation of the
loop condition; `attempts` counts the `vTaskDelay(100ms)` calls executed
so far and `fuel = 80 - attempts`.  Returns the flag value that decides
the return statement together with the final `attempts` count. -/
def wifi_wait (env : Nat → Bool) : Nat → Nat → Bool × Nat
  | attempts, 0 => (env attempts, attempts)
  | attempts, fuel + 1 =>
    if env attempts then (true, attempts)
    else wifi_wait env (attempts + 1) fuel

/-- Embedding of `attempt_wifi_connect` (main.c:157): clears the flag,
configures and starts the driver, issues `connect()`, then polls the flag
for at most 80 further 100 ms delays.  Result: the returned `esp_err_t`,
the number of delays executed, and the action trace. -/
def attempt_wifi_connect (ss pw : String) (env : Nat → Bool) :
    EspErr × Nat × List Action :=
  let w := wifi_wait env 0 80
  ((if w.1 then .ESP_OK else .ESP_FAIL), w.2,
    [.setLinkDown, .wifiSetConfig ss pw, .wifiStart, .wifiConnect])

/-- The four global credential buffers (main.c:50-53). -/
structure Bufs where
  ssid : String
  wifi_pass : String
  mqtt_broker : String
  mqtt_topic : String
deriving DecidableEq, Repr

/-- Buffer effect of `load_from_nvs("ssid", ssid, 32)`. -/
def write_ssid (b : Bufs) : Option String → Bufs
  | some v => { b with ssid := v }
  | none => b

/-- Buffer effect of `load_from_nvs("pass", wifi_pass, 64)`. -/
def write_pass (b : Bufs) : Option String → Bufs
  | some v => { b with wifi_pass := v }
  | none => b

/-- Buffer effect of `load_from_nvs("broker", mqtt_broker, 64)`. -/
def write_broker (b : Bufs) : Option String → Bufs
  | some v => { b with mqtt_broker := v }
  | none => b

/-- Buffer effect of `load_from_nvs("topic", mqtt_topic, 64)`. -/
def write_topic (b : Bufs) : Option String → Bufs
  | some v => { b with mqtt_topic := v }
  | none => b

/-- The `[O]` Auto Connect branch of `app_main` (main.c:234-251).
Returns `(config_ready, buffers, actions)`.  The four loads are chained
with the short-circuit `&&` of the C source: a failing load stops the
chain, prints the diagnostic and leaves `config_ready` false.  On full
load success the link attempt runs on the loaded buffers. -/
def auto_mode (st : Store) (b : Bufs) (env : Nat → Bool) :
    Bool × Bufs × List Action :=
  let l1 := load_from_nvs st "ssid" 32
  let b1 := write_ssid b l1.2
  let a1 : List Action :=
    [.printMsg "Loading configuration from NVS...", .nvsLoad "ssid" l1.1]
  if l1.1 = .ESP_OK then
    let l2 := load_from_nvs st "pass" 64
    let b2 := write_pass b1 l2.2
    let a2 := a1 ++ [Action.nvsLoad "pass" l2.1]
    if l2.1 = .ESP_OK then
      let l3 := load_from_nvs st "broker" 64
      let b3 := write_broker b2 l3.2
      let a3 := a2 ++ [Action.nvsLoad "broker" l3.1]
      if l3.1 = .ESP_OK then
        let l4 := load_from_nvs st "topic" 64
        let b4 := write_topic b3 l4.2
        let a4 := a3 ++ [Action.nvsLoad "topic" l4.1]
        if l4.1 = .ESP_OK then
          let att := attempt_wifi_connect b4.ssid b4.wifi_pass env
          let a5 := a4 ++
            [Action.printMsg ("Credentials found for SSID: " ++ b4.ssid)] ++
            att.2.2
          if att.1 = .ESP_OK then
            (true, b4, a5)
          else
            (false, b4,
              a5 ++ [Action.printMsg "Failed to connect! Please use New Setup [N]."])
        else
          (false, b4,
            a4 ++ [Action.printMsg "No saved configuration found! Please use New Setup [N]."])
      else
        (false, b3,
          a3 ++ [Action.printMsg "No saved configuration found! Please use New Setup [N]."])
    else
      (false, b2,
        a2 ++ [Action.printMsg "No saved configuration found! Please use New Setup [N]."])
  else
    (false, b1,
      a1 ++ [Action.printMsg "No saved configuration found! Please use New Setup [N]."])

/-- One iteration of the wizard Wi-Fi entry loop: the two `read_input`
results and the link environment of that attempt. -/
structure WizardTry where
  ssid : String
  pass : String
  env : Nat → Bool

/-- The `while(1)` Wi-Fi entry loop of the wizard (main.c:257-271).
Each list element feeds one iteration.  On the first successful link
attempt the two network fields are saved and the loop exits with the
updated buffers; a failed attempt prints the diagnostic, calls
`esp_wifi_stop()` and retries.  If every listed attempt fails the result
is `none`: the C loop is still running, prompting for the next entry. -/
def wizard_network (b : Bufs) : List WizardTry → Option Bufs × List Action
  | [] => (none, [])
  | t :: rest =>
    let b1 : Bufs := { b with ssid := t.ssid, wifi_pass := t.pass }
    let att := attempt_wifi_connect t.ssid t.pass t.env
    let acts : List Action :=
      [.readLine false t.ssid, .readLine true t.pass,
       .printMsg "Attempting connection..."] ++ att.2.2
    if att.1 = .ESP_OK then
      (some b1,
        acts ++ [Action.printMsg "Wi-Fi Connected! Saving to NVS...",
                 Action.nvsSave "ssid" t.ssid, Action.nvsSave "pass" t.pass])
    else
      let r := wizard_network b1 rest
      (r.1,
        acts ++ [Action.printMsg "Connection Failed. Try again.", Action.wifiStop]
             ++ r.2)

/-- The `[N]` New Setup branch of `app_main` (main.c:252-279): the Wi-Fi
entry loop followed by the unconditional broker / topic entry and saves.
`broker` and `topic` are the two unmasked `read_input` results. -/
def wizard_mode (b : Bufs) (tries : List WizardTry) (broker topic : String) :
    Option Bufs × List Action :=
  let r := wizard_network b tries
  match r.1 with
  | none => (none, [Action.printMsg "--- STARTING WIZARD ---"] ++ r.2)
  | some b1 =>
    let b2 : Bufs := { b1 with mqtt_broker := broker, mqtt_topic := topic }
    (some b2,
      [Action.printMsg "--- STARTING WIZARD ---"] ++ r.2 ++
        [Action.readLine false broker, Action.readLine false topic,
         Action.nvsSave "broker" broker, Action.nvsSave "topic" topic])

/-- Operator input for one iteration of the boot-menu loop: the raw byte
read as the selection, and the data consumed if the corresponding branch
runs. -/
structure MenuIter where
  choice : Nat
  autoEnv : Nat → Bool
  tries : List WizardTry
  broker : String
  topic : String

/-- Outcome of one iteration of the `while (!config_ready)` loop. -/
inductive IterOut
  | provisioned (b : Bufs) (acts : List Action)
  | again (b : Bufs) (acts : List Action)
  | blocked (b : Bufs) (acts : List Action)

/-- One iteration of the boot-menu loop (main.c:220-284): dispatch on the
selection byte.  `'O'` = 79, `'o'` = 111, `'N'` = 78, `'n'` = 110. -/
def menu_iter (st : Store) (b : Bufs) (it : MenuIter) : IterOut :=
  if it.choice = 79 ∨ it.choice = 111 then
    let r := auto_mode st b it.autoEnv
    if r.1 then .provisioned r.2.1 r.2.2 else .again r.2.1 r.2.2
  else if it.choice = 78 ∨ it.choice = 110 then
    let r := wizard_mode b it.tries it.broker it.topic
    match r.1 with
    | some b2 => .provisioned b2 r.2
    | none => .blocked b r.2
  else
    .again b [.printMsg "Invalid selection."]

/-- Replay the `nvsSave` actions of a trace into the store. -/
def apply_saves (st : Store) : List Action → Store
  | [] => st
  | .nvsSave k v :: rest => apply_saves (save_to_nvs st k v) rest
  | _ :: rest => apply_saves st rest

/-- Outcome of the whole boot-menu loop on a list of operator inputs. -/
inductive BootOut
  | provisioned (st : Store) (b : Bufs) (acts : List Action)
  | pending (st : Store) (b : Bufs) (acts : List Action)
  | blocked (st : Store) (b : Bufs) (acts : List Action)

/-- The `while (!config_ready)` selection loop (main.c:220): iterations
run until one sets `config_ready`; `pending` means the listed inputs were
exhausted with the menu about to be displayed again. -/
def boot_menu (st : Store) (b : Bufs) : List MenuIter → BootOut
  | [] => .pending st b []
  | it :: rest =>
    match menu_iter st b it with
    | .provisioned b2 acts => .provisioned (apply_saves st acts) b2 acts
    | .blocked b2 acts => .blocked (apply_saves st acts) b2 acts
    | .again b2 acts =>
      match boot_menu (apply_saves st acts) b2 rest with
      | .provisioned st3 b3 acts3 => .provisioned st3 b3 (acts ++ acts3)
      | .pending st3 b3 acts3 => .pending st3 b3 (acts ++ acts3)
      | .blocked st3 b3 acts3 => .blocked st3 b3 (acts ++ acts3)

/-- Endpoint URI built by `start_mqtt` (main.c:181): `snprintf` into a
128-byte buffer, hence at most 127 characters are kept. -/
def build_mqtt_uri (broker : String) : String :=
  String.mk (("mqtt://" ++ broker ++ ":1883").data.take 127)

/-- Embedding of `start_mqtt` (main.c:178): starts the client on the
constructed URI. -/
def start_mqtt (broker : String) : List Action :=
  [.mqttStart (build_mqtt_uri broker)]

/-- The two event-driven status flags (main.c:45-46). -/
structure LinkFlags where
  wifi_connected : Bool
  mqtt_connected : Bool
deriving DecidableEq, Repr

/-- Wi-Fi driver events handled by `wifi_event_handler` (main.c:122). -/
inductive WifiEvent
  | staStart
  | staDisconnected
  | gotIp
deriving DecidableEq, Repr

/-- Embedding of `wifi_event_handler`: the new value of `wifi_connected`
and the driver calls issued from the callback. -/
def wifi_event_handler (e : WifiEvent) (w : Bool) : Bool × List Action :=
  match e with
  | .staStart => (w, [.wifiConnect])
  | .staDisconnected => (false, [])
  | .gotIp => (true, [])

/-- MQTT client events handled by `mqtt_event_handler` (main.c:135). -/
inductive MqttEvent
  | connected
  | disconnected
deriving DecidableEq, Repr

/-- Embedding of `mqtt_event_handler`: the new value of `mqtt_connected`. -/
def mqtt_event_handler (e : MqttEvent) (_m : Bool) : Bool :=
  match e with
  | .connected => true
  | .disconnected => false

/-- One iteration of the main publish loop (main.c:293-308).  `rand` is
the `esp_random()` value, `pubResult` the return value of
`esp_mqtt_client_publish`, which the code discards.  Result: the flags
after the iteration body (before the 10 s delay) and the actions of the
iteration. -/
def steady_tick (topic : String) (f : LinkFlags) (rand : Nat)
    (_pubResult : Int) : LinkFlags × List Action :=
  if f.wifi_connected && f.mqtt_connected then
    (f, [.mqttPublish topic (Nat.repr (rand % 100)) 1 false,
         .printMsg ("Published: " ++ Nat.repr (rand % 100))])
  else if !f.wifi_connected then
    (f, [.printMsg "Wi-Fi Lost. Reconnecting...", .wifiConnect])
  else
    (f, [])

/-- Input of one steady-state iteration: the random value, the discarded
publish result, and the flag values found at the next tick after the
event callbacks that ran during the 10 s delay. -/
structure TickInput where
  rand : Nat
  pubResult : Int
  flagsAfterDelay : LinkFlags

/-- The infinite `while (1)` loop (main.c:293) run over a list of tick
inputs: every listed tick is executed, none stops the loop. -/
def steady_run (topic : String) (f : LinkFlags) :
    List TickInput → LinkFlags × List (List Action)
  | [] => (f, [])
  | i :: rest =>
    let t := steady_tick topic f i.rand i.pubResult
    let r := steady_run topic i.flagsAfterDelay rest
    (r.1, t.2 :: r.2)

/-- Publish actions of a trace. -/
def isPublish : Action → Bool
  | .mqttPublish _ _ _ _ => true
  | _ => false

/-- Persistence actions of a trace. -/
def isSave : Action → Bool
  | .nvsSave _ _ => true
  | _ => false

/-- The `nvsSave` actions of a trace, in order. -/
def savesOf (acts : List Action) : List Action :=
  acts.filter isSave

/-! ## Helper lemmas -/

/-- A load that does not return `ESP_OK` never writes the buffer. -/
lemma load_fail_none (st : Store) (k : String) (m : Nat)
    (h : (load_from_nvs st k m).1 ≠ .ESP_OK) :
    (load_from_nvs st k m).2 = none := by
  unfold load_from_nvs at h ⊢
  rcases hst : Store.get st k with _ | v
  · simp [hst]
  · rw [hst] at h
    by_cases hv : v.length + 1 ≤ m <;> simp [hv] at h

/-- The wait loop yields `true` exactly when the flag is seen `true` at
one of the observations `a .. a + f`. -/
lemma wifi_wait_true_iff (env : Nat → Bool) (f : Nat) :
    ∀ a, ((wifi_wait env a f).1 = true ↔
      ∃ j, a ≤ j ∧ j ≤ a + f ∧ env j = true) := by
  induction f with
  | zero =>
    intro a
    simp only [wifi_wait]
    constructor
    · intro h; exact ⟨a, le_refl a, by omega, h⟩
    · rintro ⟨j, h1, h2, h3⟩
      have : j = a := by omega
      exact this ▸ h3
  | succ f ih =>
    intro a
    by_cases h : env a = true
    · have hw : wifi_wait env a (f + 1) = (true, a) := by
        simp [wifi_wait, h]
      rw [hw]
      exact iff_of_true rfl ⟨a, le_refl a, by omega, h⟩
    · have hb : env a = false := by
        revert h; cases env a <;> simp
      have hw : wifi_wait env a (f + 1) = wifi_wait env (a + 1) f := by
        simp [wifi_wait, hb]
      rw [hw, ih (a + 1)]
      constructor
      · rintro ⟨j, h1, h2, h3⟩; exact ⟨j, by omega, by omega, h3⟩
      · rintro ⟨j, h1, h2, h3⟩
        have hne : j ≠ a := by
          intro he; rw [he, hb] at h3; exact absurd h3 (by decide)
        exact ⟨j, by omega, by omega, h3⟩

/-- The wait loop exits at the first observation of a `true` flag. -/
lemma wifi_wait_first (env : Nat → Bool) (f : Nat) :
    ∀ a k, a ≤ k → k ≤ a + f → env k = true →
      (∀ j, a ≤ j → j < k → env j = false) →
      wifi_wait env a f = (true, k) := by
  induction f with
  | zero =>
    intro a k h1 h2 h3 _
    have : k = a := by omega
    subst this
    simp [wifi_wait, h3]
  | succ f ih =>
    intro a k h1 h2 h3 h4
    by_cases h : a = k
    · subst h; simp [wifi_wait, h3]
    · have ha : env a = false := h4 a (le_refl a) (by omega)
      simp only [wifi_wait, ha, if_false, Bool.false_eq_true]
      exact ih (a + 1) k (by omega) (by omega) h3
        (fun j hj1 hj2 => h4 j (by omega) hj2)

/-- When the flag never goes up within the window the wait loop runs all
its delays and exits with the flag down. -/
lemma wifi_wait_none (env : Nat → Bool) (f : Nat) :
    ∀ a, (∀ j, a ≤ j → j ≤ a + f → env j = false) →
      wifi_wait env a f = (false, a + f) := by
  induction f with
  | zero =>
    intro a h
    simp [wifi_wait, h a (le_refl a) (by omega)]
  | succ f ih =>
    intro a h
    have ha : env a = false := h a (le_refl a) (by omega)
    simp only [wifi_wait, ha, if_false, Bool.false_eq_true]
    rw [ih (a + 1) (fun j h1 h2 => h j (by omega) (by omega))]
    have hadd : a + 1 + f = a + (f + 1) := by omega
    rw [hadd]

/-- Return value of the link attempt, in terms of the flag history. -/
lemma attempt_ok_iff (ss pw : String) (env : Nat → Bool) :
    (attempt_wifi_connect ss pw env).1 = .ESP_OK ↔
      ∃ j, j ≤ 80 ∧ env j = true := by
  unfold attempt_wifi_connect
  have h := wifi_wait_true_iff env 80 0
  by_cases hw : (wifi_wait env 0 80).1 = true
  · have hif : (if (wifi_wait env 0 80).1 = true
        then EspErr.ESP_OK else EspErr.ESP_FAIL) = EspErr.ESP_OK := by
      simp [hw]
    refine iff_of_true hif ?_
    obtain ⟨j, _, h2, h3⟩ := h.mp hw
    exact ⟨j, by omega, h3⟩
  · have hif : (if (wifi_wait env 0 80).1 = true
        then EspErr.ESP_OK else EspErr.ESP_FAIL) = EspErr.ESP_FAIL := by
      simp [hw]
    rw [show (let w := wifi_wait env 0 80;
        ((if w.1 = true then EspErr.ESP_OK else EspErr.ESP_FAIL), w.2,
          ([.setLinkDown, .wifiSetConfig ss pw, .wifiStart, .wifiConnect] : List Action))).1 =
        (if (wifi_wait env 0 80).1 = true then EspErr.ESP_OK else EspErr.ESP_FAIL) from rfl,
      hif]
    constructor
    · intro hc; exact absurd hc (by decide)
    · rintro ⟨j, h1, h2⟩
      exact absurd (h.mpr ⟨j, by omega, by omega, h2⟩) hw

/-- Diagnostic printed when a load fails in the Auto Connect branch. -/
def noCfgMsg : String := "No saved configuration found! Please use New Setup [N]."

/-- Behavior of the Auto Connect branch when the `"ssid"` load fails. -/
lemma auto_mode_fail1 (st : Store) (b : Bufs) (env : Nat → Bool)
    (h1 : (load_from_nvs st "ssid" 32).1 ≠ .ESP_OK) :
    auto_mode st b env =
      (false, b,
        [.printMsg "Loading configuration from NVS...",
         .nvsLoad "ssid" (load_from_nvs st "ssid" 32).1,
         .printMsg noCfgMsg]) := by
  have hn := load_fail_none st "ssid" 32 h1
  simp [auto_mode, h1, hn, write_ssid, noCfgMsg]

/-- Behavior of the Auto Connect branch when the `"pass"` load fails. -/
lemma auto_mode_fail2 (st : Store) (b : Bufs) (env : Nat → Bool)
    (h1 : (load_from_nvs st "ssid" 32).1 = .ESP_OK)
    (h2 : (load_from_nvs st "pass" 64).1 ≠ .ESP_OK) :
    auto_mode st b env =
      (false, write_ssid b (load_from_nvs st "ssid" 32).2,
        [.printMsg "Loading configuration from NVS...",
         .nvsLoad "ssid" .ESP_OK,
         .nvsLoad "pass" (load_from_nvs st "pass" 64).1,
         .printMsg noCfgMsg]) := by
  have hn := load_fail_none st "pass" 64 h2
  simp [auto_mode, h1, h2, hn, write_pass, noCfgMsg]

/-- Behavior of the Auto Connect branch when the `"broker"` load fails. -/
lemma auto_mode_fail3 (st : Store) (b : Bufs) (env : Nat → Bool)
    (h1 : (load_from_nvs st "ssid" 32).1 = .ESP_OK)
    (h2 : (load_from_nvs st "pass" 64).1 = .ESP_OK)
    (h3 : (load_from_nvs st "broker" 64).1 ≠ .ESP_OK) :
    auto_mode st b env =
      (false,
       write_pass (write_ssid b (load_from_nvs st "ssid" 32).2)
         (load_from_nvs st "pass" 64).2,
        [.printMsg "Loading configuration from NVS...",
         .nvsLoad "ssid" .ESP_OK,
         .nvsLoad "pass" .ESP_OK,
         .nvsLoad "broker" (load_from_nvs st "broker" 64).1,
         .printMsg noCfgMsg]) := by
  have hn := load_fail_none st "broker" 64 h3
  simp [auto_mode, h1, h2, h3, hn, write_broker, noCfgMsg]

/-- Behavior of the Auto Connect branch when the `"topic"` load fails. -/
lemma auto_mode_fail4 (st : Store) (b : Bufs) (env : Nat → Bool)
    (h1 : (load_from_nvs st "ssid" 32).1 = .ESP_OK)
    (h2 : (load_from_nvs st "pass" 64).1 = .ESP_OK)
    (h3 : (load_from_nvs st "broker" 64).1 = .ESP_OK)
    (h4 : (load_from_nvs st "topic" 64).1 ≠ .ESP_OK) :
    auto_mode st b env =
      (false,
       write_broker
         (write_pass (write_ssid b (load_from_nvs st "ssid" 32).2)
           (load_from_nvs st "pass" 64).2)
         (load_from_nvs st "broker" 64).2,
        [.printMsg "Loading configuration from NVS...",
         .nvsLoad "ssid" .ESP_OK,
         .nvsLoad "pass" .ESP_OK,
         .nvsLoad "broker" .ESP_OK,
         .nvsLoad "topic" (load_from_nvs st "topic" 64).1,
         .printMsg noCfgMsg]) := by
  have hn := load_fail_none st "topic" 64 h4
  simp [auto_mode, h1, h2, h3, h4, hn, write_topic, noCfgMsg]

/-- With all four loads succeeding, `config_ready` follows the link
attempt, which succeeds exactly when the flag goes up within the window. -/
lemma auto_mode_ready_iff (st : Store) (b : Bufs) (env : Nat → Bool) :
    (auto_mode st b env).1 = true ↔
      ((load_from_nvs st "ssid" 32).1 = .ESP_OK ∧
       (load_from_nvs st "pass" 64).1 = .ESP_OK ∧
       (load_from_nvs st "broker" 64).1 = .ESP_OK ∧
       (load_from_nvs st "topic" 64).1 = .ESP_OK ∧
       ∃ j, j ≤ 80 ∧ env j = true) := by
  by_cases h1 : (load_from_nvs st "ssid" 32).1 = .ESP_OK
  case neg => simp [auto_mode, h1]
  by_cases h2 : (load_from_nvs st "pass" 64).1 = .ESP_OK
  case neg => simp [auto_mode, h1, h2]
  by_cases h3 : (load_from_nvs st "broker" 64).1 = .ESP_OK
  case neg => simp [auto_mode, h1, h2, h3]
  by_cases h4 : (load_from_nvs st "topic" 64).1 = .ESP_OK
  case neg => simp [auto_mode, h1, h2, h3, h4]
  rcases Classical.em (∃ j, j ≤ 80 ∧ env j = true) with hup | hdn
  · have hok : ∀ a c, (attempt_wifi_connect a c env).1 = .ESP_OK :=
      fun a c => (attempt_ok_iff a c env).mpr hup
    simp [auto_mode, h1, h2, h3, h4, hok, hup]
  · have hko : ∀ a c, ¬((attempt_wifi_connect a c env).1 = .ESP_OK) :=
      fun a c hx => hdn ((attempt_ok_iff a c env).mp hx)
    simp [auto_mode, h1, h2, h3, h4, hko, hdn]

/-- With all four loads succeeding, the link attempt is issued: the trace
contains the `connect()` call, whatever the outcome. -/
lemma auto_mode_all_ok_connect (st : Store) (b : Bufs) (env : Nat → Bool)
    (h1 : (load_from_nvs st "ssid" 32).1 = .ESP_OK)
    (h2 : (load_from_nvs st "pass" 64).1 = .ESP_OK)
    (h3 : (load_from_nvs st "broker" 64).1 = .ESP_OK)
    (h4 : (load_from_nvs st "topic" 64).1 = .ESP_OK) :
    Action.wifiConnect ∈ (auto_mode st b env).2.2 := by
  simp only [auto_mode, h1, h2, h3, h4, if_true]
  split <;> simp [attempt_wifi_connect]

/-- The Auto Connect branch never writes to NVS. -/
lemma auto_mode_no_saves (st : Store) (b : Bufs) (env : Nat → Bool) :
    savesOf (auto_mode st b env).2.2 = [] := by
  by_cases h1 : (load_from_nvs st "ssid" 32).1 = .ESP_OK
  case neg => rw [auto_mode_fail1 st b env h1]; rfl
  by_cases h2 : (load_from_nvs st "pass" 64).1 = .ESP_OK
  case neg => rw [auto_mode_fail2 st b env h1 h2]; rfl
  by_cases h3 : (load_from_nvs st "broker" 64).1 = .ESP_OK
  case neg => rw [auto_mode_fail3 st b env h1 h2 h3]; rfl
  by_cases h4 : (load_from_nvs st "topic" 64).1 = .ESP_OK
  case neg => rw [auto_mode_fail4 st b env h1 h2 h3 h4]; rfl
  simp only [auto_mode, h1, h2, h3, h4, if_true]
  split <;> simp [savesOf, isSave, attempt_wifi_connect]

/-- The action trace of a link attempt contains no NVS write. -/
lemma attempt_trace_no_saves (ss pw : String) (env : Nat → Bool) :
    savesOf (attempt_wifi_connect ss pw env).2.2 = [] := rfl

/-- The attempt result only repackages the wait-loop outcome. -/
lemma attempt_result_eq (ss pw : String) (env : Nat → Bool) :
    (attempt_wifi_connect ss pw env).1 =
      (if (wifi_wait env 0 80).1 = true then .ESP_OK else .ESP_FAIL) := rfl

/-- A failed attempt means the wait loop saw the flag down. -/
lemma attempt_fail_iff (ss pw : String) (env : Nat → Bool) :
    (attempt_wifi_connect ss pw env).1 ≠ .ESP_OK ↔
      (wifi_wait env 0 80).1 = false := by
  rw [attempt_result_eq]
  cases h : (wifi_wait env 0 80).1 <;> simp

/-- A successful attempt means the wait loop saw the flag up. -/
lemma attempt_ok_wait_iff (ss pw : String) (env : Nat → Bool) :
    (attempt_wifi_connect ss pw env).1 = .ESP_OK ↔
      (wifi_wait env 0 80).1 = true := by
  rw [attempt_result_eq]
  cases h : (wifi_wait env 0 80).1 <;> simp

/-- When every listed wizard attempt fails, the Wi-Fi entry loop is still
running and has written nothing to NVS. -/
lemma wizard_network_all_fail (tries : List WizardTry) :
    ∀ b, (∀ u ∈ tries, (attempt_wifi_connect u.ssid u.pass u.env).1 ≠ .ESP_OK) →
      (wizard_network b tries).1 = none ∧
      savesOf (wizard_network b tries).2 = [] := by
  induction tries with
  | nil => intro b _; exact ⟨rfl, rfl⟩
  | cons t rest ih =>
    intro b h
    have ht := (attempt_fail_iff t.ssid t.pass t.env).mp
      (h t (List.mem_cons_self t rest))
    have hr := ih { b with ssid := t.ssid, wifi_pass := t.pass }
      (fun u hu => h u (List.mem_cons_of_mem t hu))
    simp [wizard_network, ht, savesOf, isSave, List.filter_append,
      attempt_wifi_connect] at hr ⊢
    exact hr

/-- When the attempts before `t` fail and `t` succeeds, the Wi-Fi entry
loop exits with exactly the two network saves, issued after the
successful attempt. -/
lemma wizard_network_success (pre : List WizardTry) :
    ∀ b t post,
      (∀ u ∈ pre, (attempt_wifi_connect u.ssid u.pass u.env).1 ≠ .ESP_OK) →
      (attempt_wifi_connect t.ssid t.pass t.env).1 = .ESP_OK →
      ((wizard_network b (pre ++ t :: post)).1).isSome = true ∧
      savesOf (wizard_network b (pre ++ t :: post)).2 =
        [.nvsSave "ssid" t.ssid, .nvsSave "pass" t.pass] := by
  induction pre with
  | nil =>
    intro b t post _ hok
    have hw := (attempt_ok_wait_iff t.ssid t.pass t.env).mp hok
    simp [wizard_network, hw, savesOf, isSave, List.filter_append,
      attempt_wifi_connect]
  | cons u rest ih =>
    intro b t post hfail hok
    have hu := (attempt_fail_iff u.ssid u.pass u.env).mp
      (hfail u (List.mem_cons_self u rest))
    have hr := ih { b with ssid := u.ssid, wifi_pass := u.pass } t post
      (fun v hv => hfail v (List.mem_cons_of_mem u hv)) hok
    simp [wizard_network, hu, savesOf, isSave, List.filter_append,
      attempt_wifi_connect] at hr ⊢
    exact hr

/-- The wizard with an eventually-successful network entry persists the
four fields, in order, network fields first. -/
lemma wizard_mode_success_saves (pre : List WizardTry) (b : Bufs)
    (t : WizardTry) (post : List WizardTry) (broker topic : String)
    (hfail : ∀ u ∈ pre, (attempt_wifi_connect u.ssid u.pass u.env).1 ≠ .ESP_OK)
    (hok : (attempt_wifi_connect t.ssid t.pass t.env).1 = .ESP_OK) :
    savesOf (wizard_mode b (pre ++ t :: post) broker topic).2 =
      [.nvsSave "ssid" t.ssid, .nvsSave "pass" t.pass,
       .nvsSave "broker" broker, .nvsSave "topic" topic] := by
  obtain ⟨hsome, hsaves⟩ := wizard_network_success pre b t post hfail hok
  obtain ⟨b1, hb1⟩ := Option.isSome_iff_exists.mp hsome
  simp [wizard_mode, hb1, savesOf, isSave, List.filter_append] at hsaves ⊢
  rw [hsaves]
  rfl

/-! ## C2: oversized and absent keys in `load_from_nvs` -/

/-- C2 (code behavior at the failing input): with a 32-character string
stored under `"ssid"` and a 32-byte caller buffer, `nvs_get_str` reports
`required_size` 33 > 32, the read is skipped, yet `load_from_nvs`
returns `ESP_OK` with the buffer untouched — success without filling the
buffer, contradicting the claim that an oversized value must yield a
failure.  An absent key does return the not-found failure. -/
theorem load_oversized_returns_ok :
    load_from_nvs [("ssid", String.mk (List.replicate 32 'a'))] "ssid" 32 =
      (.ESP_OK, none) ∧
    load_from_nvs [] "ssid" 32 = (.ESP_ERR_NVS_NOT_FOUND, none) := by
  constructor <;> rfl

/-! ## C3: bounded wait of the link attempt -/

/-- C3: `attempt_wifi_connect` first clears the flag, configures the
driver and issues `connect()`; it returns `ESP_OK` iff the flag is
observed up at one of the 100 ms polls `0 .. 80` (at most 8 seconds of
delays); it exits at the first up observation without waiting out the
window, and when the flag never goes up within the window it returns
`ESP_FAIL` after exactly 80 delays (8 seconds), whatever the driver does
later. -/
theorem attempt_link_bounded_wait (ss pw : String) (env : Nat → Bool) (k : Nat) :
    (attempt_wifi_connect ss pw env).2.2 =
      [.setLinkDown, .wifiSetConfig ss pw, .wifiStart, .wifiConnect] ∧
    ((attempt_wifi_connect ss pw env).1 = .ESP_OK ↔
      ∃ j, j ≤ 80 ∧ env j = true) ∧
    (k ≤ 80 → env k = true → (∀ j, j < k → env j = false) →
      attempt_wifi_connect ss pw env =
        (.ESP_OK, k, [.setLinkDown, .wifiSetConfig ss pw, .wifiStart, .wifiConnect])) ∧
    ((∀ j, j ≤ 80 → env j = false) →
      attempt_wifi_connect ss pw env =
        (.ESP_FAIL, 80, [.setLinkDown, .wifiSetConfig ss pw, .wifiStart, .wifiConnect])) := by
  refine ⟨rfl, attempt_ok_iff ss pw env, ?_, ?_⟩
  · intro h1 h2 h3
    unfold attempt_wifi_connect
    rw [wifi_wait_first env 80 0 k (by omega) (by omega) h2
      (fun j _ hj => h3 j hj)]
    rfl
  · intro h
    unfold attempt_wifi_connect
    rw [wifi_wait_none env 80 0 (fun j _ hj => h j (by omega))]
    rfl

/-- C3 witness: with a flag that goes up at the third poll, the attempt
returns `ESP_OK` after exactly 2 delays. -/
theorem attempt_link_bounded_wait_witness :
    attempt_wifi_connect "ap" "pw" (fun j => j == 2) =
      (.ESP_OK, 2,
        [.setLinkDown, .wifiSetConfig "ap" "pw", .wifiStart, .wifiConnect]) :=
  (attempt_link_bounded_wait "ap" "pw" (fun j => j == 2) 2).2.2.1
    (by decide) (by decide) (by decide)

/-! ## C1: the Auto Connect completeness gate -/

/-- C1: the Auto Connect branch sets `config_ready` iff all four loads
return `ESP_OK` and the link attempt succeeds; on the first failing load
(any subset of keys missing reduces to one of the four cases) the branch
returns to the menu with the diagnostic, issues no `connect()`, and the
buffers hold exactly the values written by the loads already performed. -/
theorem autoload_completeness (st : Store) (b : Bufs) (env : Nat → Bool) :
    ((auto_mode st b env).1 = true ↔
      ((load_from_nvs st "ssid" 32).1 = .ESP_OK ∧
       (load_from_nvs st "pass" 64).1 = .ESP_OK ∧
       (load_from_nvs st "broker" 64).1 = .ESP_OK ∧
       (load_from_nvs st "topic" 64).1 = .ESP_OK ∧
       ∃ j, j ≤ 80 ∧ env j = true)) ∧
    ((load_from_nvs st "ssid" 32).1 ≠ .ESP_OK →
      auto_mode st b env =
        (false, b,
          [.printMsg "Loading configuration from NVS...",
           .nvsLoad "ssid" (load_from_nvs st "ssid" 32).1,
           .printMsg noCfgMsg])) ∧
    ((load_from_nvs st "ssid" 32).1 = .ESP_OK →
      (load_from_nvs st "pass" 64).1 ≠ .ESP_OK →
      auto_mode st b env =
        (false, write_ssid b (load_from_nvs st "ssid" 32).2,
          [.printMsg "Loading configuration from NVS...",
           .nvsLoad "ssid" .ESP_OK,
           .nvsLoad "pass" (load_from_nvs st "pass" 64).1,
           .printMsg noCfgMsg])) ∧
    ((load_from_nvs st "ssid" 32).1 = .ESP_OK →
      (load_from_nvs st "pass" 64).1 = .ESP_OK →
      (load_from_nvs st "broker" 64).1 ≠ .ESP_OK →
      auto_mode st b env =
        (false,
         write_pass (write_ssid b (load_from_nvs st "ssid" 32).2)
           (load_from_nvs st "pass" 64).2,
          [.printMsg "Loading configuration from NVS...",
           .nvsLoad "ssid" .ESP_OK,
           .nvsLoad "pass" .ESP_OK,
           .nvsLoad "broker" (load_from_nvs st "broker" 64).1,
           .printMsg noCfgMsg])) ∧
    ((load_from_nvs st "ssid" 32).1 = .ESP_OK →
      (load_from_nvs st "pass" 64).1 = .ESP_OK →
      (load_from_nvs st "broker" 64).1 = .ESP_OK →
      (load_from_nvs st "topic" 64).1 ≠ .ESP_OK →
      auto_mode st b env =
        (false,
         write_broker
           (write_pass (write_ssid b (load_from_nvs st "ssid" 32).2)
             (load_from_nvs st "pass" 64).2)
           (load_from_nvs st "broker" 64).2,
          [.printMsg "Loading configuration from NVS...",
           .nvsLoad "ssid" .ESP_OK,
           .nvsLoad "pass" .ESP_OK,
           .nvsLoad "broker" .ESP_OK,
           .nvsLoad "topic" (load_from_nvs st "topic" 64).1,
           .printMsg noCfgMsg])) ∧
    (¬((load_from_nvs st "ssid" 32).1 = .ESP_OK ∧
       (load_from_nvs st "pass" 64).1 = .ESP_OK ∧
       (load_from_nvs st "broker" 64).1 = .ESP_OK ∧
       (load_from_nvs st "topic" 64).1 = .ESP_OK) →
      (auto_mode st b env).1 = false ∧
      Action.wifiConnect ∉ (auto_mode st b env).2.2 ∧
      Action.printMsg noCfgMsg ∈ (auto_mode st b env).2.2) := by
  refine ⟨auto_mode_ready_iff st b env,
    auto_mode_fail1 st b env,
    auto_mode_fail2 st b env,
    auto_mode_fail3 st b env,
    auto_mode_fail4 st b env, ?_⟩
  intro h
  by_cases h1 : (load_from_nvs st "ssid" 32).1 = .ESP_OK
  case neg => rw [auto_mode_fail1 st b env h1]; refine ⟨rfl, by simp, by simp⟩
  by_cases h2 : (load_from_nvs st "pass" 64).1 = .ESP_OK
  case neg => rw [auto_mode_fail2 st b env h1 h2]; refine ⟨rfl, by simp, by simp⟩
  by_cases h3 : (load_from_nvs st "broker" 64).1 = .ESP_OK
  case neg => rw [auto_mode_fail3 st b env h1 h2 h3]; refine ⟨rfl, by simp, by simp⟩
  by_cases h4 : (load_from_nvs st "topic" 64).1 = .ESP_OK
  case neg => rw [auto_mode_fail4 st b env h1 h2 h3 h4]; refine ⟨rfl, by simp, by simp⟩
  exact absurd ⟨h1, h2, h3, h4⟩ h

/-- C1 witness: with an empty store the first load fails with not-found
and the branch self-loops without connecting. -/
theorem autoload_completeness_witness :
    auto_mode [] ⟨"", "", "", ""⟩ (fun _ => false) =
      (false, ⟨"", "", "", ""⟩,
        [.printMsg "Loading configuration from NVS...",
         .nvsLoad "ssid" .ESP_ERR_NVS_NOT_FOUND,
         .printMsg noCfgMsg]) :=
  (autoload_completeness [] ⟨"", "", "", ""⟩ (fun _ => false)).2.1 (by decide)

/-! ## C4: persistence happens at exactly two points -/

/-- C4: the Auto Connect branch never writes to NVS; a wizard whose
network attempts all fail persists nothing, however many attempts run;
and when the attempts before `t` fail and `t` succeeds, the whole wizard
persists exactly the network fields right after the successful attempt
followed by the unconditional broker/topic saves — nowhere else. -/
theorem persistence_points (st : Store) (b : Bufs) (env : Nat → Bool)
    (tries pre post : List WizardTry) (t : WizardTry) (broker topic : String) :
    savesOf (auto_mode st b env).2.2 = [] ∧
    ((∀ u ∈ tries, (attempt_wifi_connect u.ssid u.pass u.env).1 ≠ .ESP_OK) →
      (wizard_network b tries).1 = none ∧
      savesOf (wizard_network b tries).2 = [] ∧
      savesOf (wizard_mode b tries broker topic).2 = []) ∧
    ((∀ u ∈ pre, (attempt_wifi_connect u.ssid u.pass u.env).1 ≠ .ESP_OK) →
      (attempt_wifi_connect t.ssid t.pass t.env).1 = .ESP_OK →
      savesOf (wizard_network b (pre ++ t :: post)).2 =
        [.nvsSave "ssid" t.ssid, .nvsSave "pass" t.pass] ∧
      savesOf (wizard_mode b (pre ++ t :: post) broker topic).2 =
        [.nvsSave "ssid" t.ssid, .nvsSave "pass" t.pass,
         .nvsSave "broker" broker, .nvsSave "topic" topic]) := by
  refine ⟨auto_mode_no_saves st b env, ?_, ?_⟩
  · intro h
    obtain ⟨hnone, hsaves⟩ := wizard_network_all_fail tries b h
    refine ⟨hnone, hsaves, ?_⟩
    simp [wizard_mode, hnone, savesOf, isSave, List.filter_append] at hsaves ⊢
    exact hsaves
  · intro hfail hok
    exact ⟨(wizard_network_success pre b t post hfail hok).2,
      wizard_mode_success_saves pre b t post broker topic hfail hok⟩

/-- C4 witness: one failing attempt followed by a successful one persists
exactly the four fields, network first. -/
theorem persistence_points_witness :
    savesOf (wizard_mode ⟨"", "", "", ""⟩
        [⟨"bad", "pw0", fun _ => false⟩, ⟨"net1", "pw1", fun _ => true⟩]
        "10.0.0.5" "sensors/a").2 =
      [.nvsSave "ssid" "net1", .nvsSave "pass" "pw1",
       .nvsSave "broker" "10.0.0.5", .nvsSave "topic" "sensors/a"] :=
  ((persistence_points [] ⟨"", "", "", ""⟩ (fun _ => false)
      [] [⟨"bad", "pw0", fun _ => false⟩] []
      ⟨"net1", "pw1", fun _ => true⟩ "10.0.0.5" "sensors/a").2.2
    (by
      intro u hu
      simp only [List.mem_singleton] at hu
      subst hu
      decide)
    (by decide)).2

/-! ## C5 and C6: the steady-state loop -/

/-- The steady loop processes every tick: no iteration stops it. -/
lemma steady_run_length (topic : String) (inputs : List TickInput) :
    ∀ f, ((steady_run topic f inputs).2).length = inputs.length := by
  induction inputs with
  | nil => intro f; rfl
  | cons i rest ih => intro f; simp [steady_run, ih]

/-- C5: a tick publishes exactly when both flags are up at its start
(Link up with Session down publishes nothing); the tick body never
mutates the flags (they change only through the event callbacks, here
`wifi_event_handler` / `mqtt_event_handler` mirrored between ticks); the
tick is independent of the publish return value, which the code
discards, so a failed publish changes nothing; and the loop runs every
tick regardless. -/
theorem steady_publish_gating (topic : String) (f : LinkFlags) (rand : Nat)
    (r1 r2 : Int) (inputs : List TickInput) :
    ((steady_tick topic f rand r1).2.any isPublish =
      (f.wifi_connected && f.mqtt_connected)) ∧
    (steady_tick topic ⟨true, false⟩ rand r1).2 = [] ∧
    (steady_tick topic f rand r1).1 = f ∧
    steady_tick topic f rand r1 = steady_tick topic f rand r2 ∧
    ((steady_run topic f inputs).2).length = inputs.length := by
  refine ⟨?_, rfl, ?_, rfl, steady_run_length topic inputs f⟩
  · rcases f with ⟨w, m⟩
    cases w <;> cases m <;> simp [steady_tick, isPublish]
  · rcases f with ⟨w, m⟩
    cases w <;> cases m <;> simp [steady_tick]

/-- C6: a tick starting with Link down issues exactly one `connect()`
and no publish; a tick with Link up and Session down issues neither. -/
theorem steady_reconnect_trigger (topic : String) (rand : Nat) (r : Int)
    (m : Bool) :
    (steady_tick topic ⟨false, m⟩ rand r).2.count Action.wifiConnect = 1 ∧
    (steady_tick topic ⟨false, m⟩ rand r).2.any isPublish = false ∧
    (steady_tick topic ⟨true, false⟩ rand r).2.count Action.wifiConnect = 0 ∧
    (steady_tick topic ⟨true, false⟩ rand r).2.any isPublish = false := by
  refine ⟨?_, ?_, rfl, rfl⟩ <;> cases m <;> rfl

/-! ## C7: the boot menu -/

/-- A selection byte other than the four recognised letters self-loops
with the diagnostic, touching nothing. -/
lemma menu_iter_invalid (st : Store) (b : Bufs) (it : MenuIter)
    (h : it.choice ∉ ([79, 111, 78, 110] : List Nat)) :
    menu_iter st b it = .again b [.printMsg "Invalid selection."] := by
  simp only [List.mem_cons, List.mem_singleton, not_or] at h
  obtain ⟨h79, h111, h78, h110⟩ := h
  simp [menu_iter, h79, h111, h78, h110]

/-- Any number of invalid selections leaves the loop at the menu with
the store and buffers untouched. -/
lemma boot_menu_all_invalid (its : List MenuIter) :
    ∀ st b, (∀ j ∈ its, j.choice ∉ ([79, 111, 78, 110] : List Nat)) →
      boot_menu st b its =
        .pending st b
          (List.replicate its.length (Action.printMsg "Invalid selection.")) := by
  induction its with
  | nil => intro st b _; rfl
  | cons i rest ih =>
    intro st b h
    have hmi := menu_iter_invalid st b i (h i (List.mem_cons_self i rest))
    have hr := ih st b (fun j hj => h j (List.mem_cons_of_mem i hj))
    simp [boot_menu, hmi, apply_saves, hr, List.replicate_succ]

/-- C7: the menu recognises exactly the case-insensitive letters O and N
(bytes 79/111/78/110); any other byte prints the diagnostic and
re-displays the menu, with no retry limit (any number of invalid bytes
leaves the loop pending at the menu, store and buffers untouched); with
O the iteration provisions iff the Auto Connect branch fully succeeds,
with N iff the wizard completes. -/
theorem boot_menu_selection (st : Store) (b : Bufs) (it : MenuIter)
    (its : List MenuIter) :
    (it.choice ∉ ([79, 111, 78, 110] : List Nat) →
      menu_iter st b it = .again b [.printMsg "Invalid selection."]) ∧
    ((∀ j ∈ its, j.choice ∉ ([79, 111, 78, 110] : List Nat)) →
      boot_menu st b its =
        .pending st b
          (List.replicate its.length (Action.printMsg "Invalid selection."))) ∧
    ((it.choice = 79 ∨ it.choice = 111) →
      ((∃ b2 acts, menu_iter st b it = .provisioned b2 acts) ↔
        (auto_mode st b it.autoEnv).1 = true)) ∧
    ((it.choice = 78 ∨ it.choice = 110) →
      ((∃ b2 acts, menu_iter st b it = .provisioned b2 acts) ↔
        ((wizard_network b it.tries).1).isSome = true)) := by
  refine ⟨menu_iter_invalid st b it, boot_menu_all_invalid its st b, ?_, ?_⟩
  · intro hch
    simp only [menu_iter, if_pos hch]
    by_cases hr : (auto_mode st b it.autoEnv).1 = true
    · simp only [hr, if_true]
      exact iff_of_true ⟨_, _, rfl⟩ trivial
    · have hf : (auto_mode st b it.autoEnv).1 = false := by
        revert hr; cases (auto_mode st b it.autoEnv).1 <;> simp
      simp only [hf, Bool.false_eq_true, if_false]
      constructor
      · rintro ⟨b2, acts, hcon⟩; cases hcon
      · intro hx; exact hx.elim
  · intro hch
    have hnot : ¬(it.choice = 79 ∨ it.choice = 111) := by
      rcases hch with h | h <;> rw [h] <;> decide
    simp only [menu_iter, if_neg hnot, if_pos hch]
    rcases hn : (wizard_network b it.tries).1 with _ | b1
    · have hm : (wizard_mode b it.tries it.broker it.topic).1 = none := by
        simp [wizard_mode, hn]
      rcases hw : wizard_mode b it.tries it.broker it.topic with ⟨o, acts⟩
      rw [hw] at hm
      simp only at hm
      subst hm
      simp only [hn]
      constructor
      · rintro ⟨b2, acts2, hcon⟩; cases hcon
      · intro hx; exact absurd hx (by decide)
    · have hm : (wizard_mode b it.tries it.broker it.topic).1 =
          some { b1 with mqtt_broker := it.broker, mqtt_topic := it.topic } := by
        simp [wizard_mode, hn]
      rcases hw : wizard_mode b it.tries it.broker it.topic with ⟨o, acts⟩
      rw [hw] at hm
      simp only at hm
      subst hm
      simp only [hn]
      exact iff_of_true ⟨_, _, rfl⟩ rfl

/-- C7 witness: the byte `X` (88) self-loops with the diagnostic. -/
theorem boot_menu_selection_witness :
    menu_iter [] ⟨"", "", "", ""⟩ ⟨88, fun _ => false, [], "", ""⟩ =
      .again ⟨"", "", "", ""⟩ [.printMsg "Invalid selection."] :=
  (boot_menu_selection [] ⟨"", "", "", ""⟩ ⟨88, fun _ => false, [], "", ""⟩ []).1
    (by decide)

/-! ## C8: the UART line reader -/

/-- Terminator bytes are not backspace bytes, and conversely. -/
lemma isBackspace_not_term (ch : Nat) (h : isBackspace ch = true) :
    isTerm ch = false := by
  simp only [isBackspace, Bool.or_eq_true, beq_iff_eq] at h
  rcases h with h | h <;> subst h <;> rfl

/-- Printable bytes are not terminators. -/
lemma isPrintable_not_term (ch : Nat) (h : isPrintable ch = true) :
    isTerm ch = false := by
  simp only [isPrintable, Bool.and_eq_true, decide_eq_true_eq] at h
  simp only [isTerm, Bool.or_eq_false_iff, beq_eq_false_iff_ne]
  omega

/-- Printable bytes are not backspace bytes. -/
lemma isPrintable_not_backspace (ch : Nat) (h : isPrintable ch = true) :
    isBackspace ch = false := by
  simp only [isPrintable, Bool.and_eq_true, decide_eq_true_eq] at h
  simp only [isBackspace, Bool.or_eq_false_iff, beq_eq_false_iff_ne]
  omega

/-- Whenever the reader returns, the buffer holds at most `len - 1`
characters, all printable. -/
lemma read_input_go_inv (mask : Bool) (len : Nat) :
    ∀ input buf echo b e r,
      buf.length ≤ len - 1 → buf.all isPrintable = true →
      read_input_go mask len buf echo input = some (b, e, r) →
      b.length ≤ len - 1 ∧ b.all isPrintable = true := by
  intro input
  induction input with
  | nil =>
    intro buf echo b e r hlen hall h
    simp only [read_input_go] at h
    split at h
    · exact absurd h (by simp)
    · simp only [Option.some.injEq, Prod.mk.injEq] at h
      obtain ⟨hb, -, -⟩ := h
      subst hb
      exact ⟨hlen, hall⟩
  | cons ch rest ih =>
    intro buf echo b e r hlen hall h
    simp only [read_input_go] at h
    by_cases hfull : buf.length < len - 1
    · rw [if_pos hfull] at h
      by_cases ht : isTerm ch = true
      · rw [if_pos ht] at h
        simp only [Option.some.injEq, Prod.mk.injEq] at h
        obtain ⟨hb, -, -⟩ := h
        subst hb
        exact ⟨hlen, hall⟩
      · rw [if_neg ht] at h
        by_cases hbs : isBackspace ch = true
        · rw [if_pos hbs] at h
          by_cases hne : 0 < buf.length
          · rw [if_pos hne] at h
            refine ih _ _ b e r ?_ ?_ h
            · have := buf.length_dropLast
              omega
            · simp only [List.all_eq_true] at hall ⊢
              intro x hx
              exact hall x (buf.dropLast_sublist.subset hx)
          · rw [if_neg hne] at h
            exact ih _ _ b e r hlen hall h
        · rw [if_neg hbs] at h
          by_cases hp : isPrintable ch = true
          · rw [if_pos hp] at h
            refine ih _ _ b e r ?_ ?_ h
            · simp only [List.length_append, List.length_singleton]
              omega
            · simp only [List.all_append, Bool.and_eq_true] at hall ⊢
              exact ⟨hall, by simp [hp]⟩
          · rw [if_neg hp] at h
            exact ih _ _ b e r hlen hall h
    · rw [if_neg hfull] at h
      simp only [Option.some.injEq, Prod.mk.injEq] at h
      obtain ⟨hb, -, -⟩ := h
      subst hb
      exact ⟨hlen, hall⟩

/-- C8: step-by-step behavior of the reader on each received byte — a CR
or LF terminates the read and echoes a newline; a backspace removes the
last accumulated character and echoes the erase sequence, or does
nothing on an empty buffer; a printable byte is appended and echoed as
the fixed `*` glyph when masked, as itself otherwise; every other byte
is silently discarded; the loop also returns once `len - 1` characters
are accumulated, and any returned buffer holds at most `len - 1`
characters, all printable. -/
theorem read_line_behavior (mask : Bool) (len : Nat)
    (buf echo rest input b e r : List Nat) (ch : Nat) :
    (buf.length < len - 1 → isTerm ch = true →
      read_input_go mask len buf echo (ch :: rest) =
        some (buf, echo ++ [10], rest)) ∧
    (buf.length < len - 1 → isBackspace ch = true → 0 < buf.length →
      read_input_go mask len buf echo (ch :: rest) =
        read_input_go mask len buf.dropLast (echo ++ [8, 32, 8]) rest) ∧
    (buf.length < len - 1 → isBackspace ch = true → buf.length = 0 →
      read_input_go mask len buf echo (ch :: rest) =
        read_input_go mask len buf echo rest) ∧
    (buf.length < len - 1 → isPrintable ch = true →
      read_input_go mask len buf echo (ch :: rest) =
        read_input_go mask len (buf ++ [ch])
          (echo ++ [if mask then 42 else ch]) rest) ∧
    (buf.length < len - 1 → isTerm ch = false → isBackspace ch = false →
      isPrintable ch = false →
      read_input_go mask len buf echo (ch :: rest) =
        read_input_go mask len buf echo rest) ∧
    (len - 1 ≤ buf.length →
      read_input_go mask len buf echo input = some (buf, echo, input)) ∧
    (read_input mask len input = some (b, e, r) →
      b.length ≤ len - 1 ∧ b.all isPrintable = true) := by
  refine ⟨?_, ?_, ?_, ?_, ?_, ?_, ?_⟩
  · intro h1 h2
    simp only [read_input_go, if_pos h1, if_pos h2]
  · intro h1 h2 h3
    have hnt : ¬(isTerm ch = true) := by
      rw [isBackspace_not_term ch h2]; simp
    simp only [read_input_go, if_pos h1, if_neg hnt, if_pos h2, if_pos h3]
  · intro h1 h2 h3
    have hnt : ¬(isTerm ch = true) := by
      rw [isBackspace_not_term ch h2]; simp
    have hne : ¬(0 < buf.length) := by omega
    simp only [read_input_go, if_pos h1, if_neg hnt, if_pos h2, if_neg hne]
  · intro h1 hp
    have hnt : ¬(isTerm ch = true) := by
      rw [isPrintable_not_term ch hp]; simp
    have hnb : ¬(isBackspace ch = true) := by
      rw [isPrintable_not_backspace ch hp]; simp
    simp only [read_input_go, if_pos h1, if_neg hnt, if_neg hnb, if_pos hp]
  · intro h1 ht hbs hp
    have hnt : ¬(isTerm ch = true) := by rw [ht]; simp
    have hnb : ¬(isBackspace ch = true) := by rw [hbs]; simp
    have hnp : ¬(isPrintable ch = true) := by rw [hp]; simp
    simp only [read_input_go, if_pos h1, if_neg hnt, if_neg hnb, if_neg hnp]
  · intro h
    have hn : ¬(buf.length < len - 1) := by omega
    cases input with
    | nil => simp only [read_input_go, if_neg hn]
    | cons c cs => simp only [read_input_go, if_neg hn]
  · intro h
    exact read_input_go_inv mask len input [] [] b e r (Nat.zero_le _) rfl h

/-- C8 witness: a `B` (66) already accumulated, then CR terminates the
read, echoing the newline and leaving later bytes unread. -/
theorem read_line_behavior_witness :
    read_input_go false 8 [66] [66] (13 :: [99]) =
      some ([66], [66, 10], [99]) :=
  (read_line_behavior false 8 [66] [66] [99] [] [] [] [] 13).1
    (by decide) (by decide)

/-! ## C9: endpoint URI and publish parameters -/

/-- String concatenation adds lengths. -/
lemma string_length_append (a c : String) :
    (a ++ c).length = a.length + c.length := by
  show (a.data ++ c.data).length = a.data.length + c.data.length
  exact List.length_append a.data c.data

/-- C9: for a broker that fits its 64-byte buffer (at most 63
characters), the URI is exactly `mqtt://<broker>:1883` — fixed port, no
user override; and an up-up tick publishes on the configured topic the
decimal representation of `esp_random() % 100`, a value in `[0, 100)`,
with QoS 1 and retain false. -/
theorem broker_uri_and_publish (broker topic : String) (rand : Nat)
    (r : Int) (hb : broker.length ≤ 63) :
    build_mqtt_uri broker = "mqtt://" ++ broker ++ ":1883" ∧
    (steady_tick topic ⟨true, true⟩ rand r).2 =
      [.mqttPublish topic (Nat.repr (rand % 100)) 1 false,
       .printMsg ("Published: " ++ Nat.repr (rand % 100))] ∧
    rand % 100 < 100 := by
  refine ⟨?_, rfl, Nat.mod_lt rand (by omega)⟩
  unfold build_mqtt_uri
  have hlen : ("mqtt://" ++ broker ++ ":1883").data.length ≤ 127 := by
    show ("mqtt://" ++ broker ++ ":1883").length ≤ 127
    rw [string_length_append, string_length_append]
    have h7 : "mqtt://".length = 7 := rfl
    have h5 : ":1883".length = 5 := rfl
    omega
  rw [List.take_of_length_le hlen]

/-- C9 witness: a concrete broker address yields the expected URI. -/
theorem broker_uri_and_publish_witness :
    build_mqtt_uri "10.0.0.5" = "mqtt://" ++ "10.0.0.5" ++ ":1883" :=
  (broker_uri_and_publish "10.0.0.5" "sensors/a" 0 0 (by decide)).1

/-! ## C10: no non-emptiness enforcement anywhere -/

/-- C10 (implicit behavior): an immediate terminator byte makes the
reader return the empty buffer; the wizard then persists an empty broker
and topic unconditionally; and a store holding the four keys with
empty-string values passes the Auto Connect gate — provisioning then
depends only on the link attempt — so the link attempt is issued with
the empty credentials. -/
theorem no_nonempty_enforcement (rest : List Nat) (b : Bufs)
    (t : WizardTry) (env : Nat → Bool)
    (hok : (attempt_wifi_connect t.ssid t.pass t.env).1 = .ESP_OK) :
    read_input false 64 (13 :: rest) = some ([], [10], rest) ∧
    savesOf (wizard_mode b [t] "" "").2 =
      [.nvsSave "ssid" t.ssid, .nvsSave "pass" t.pass,
       .nvsSave "broker" "", .nvsSave "topic" ""] ∧
    ((auto_mode [("ssid", ""), ("pass", ""), ("broker", ""), ("topic", "")]
        b env).1 = true ↔ ∃ j, j ≤ 80 ∧ env j = true) ∧
    Action.wifiConnect ∈
      (auto_mode [("ssid", ""), ("pass", ""), ("broker", ""), ("topic", "")]
        b env).2.2 := by
  refine ⟨rfl, ?_, ?_, ?_⟩
  · exact wizard_mode_success_saves [] b t [] "" ""
      (fun u hu => absurd hu (List.not_mem_nil u)) hok
  · rw [auto_mode_ready_iff]
    have e1 : (load_from_nvs
        [("ssid", ""), ("pass", ""), ("broker", ""), ("topic", "")]
        "ssid" 32).1 = EspErr.ESP_OK := rfl
    have e2 : (load_from_nvs
        [("ssid", ""), ("pass", ""), ("broker", ""), ("topic", "")]
        "pass" 64).1 = EspErr.ESP_OK := rfl
    have e3 : (load_from_nvs
        [("ssid", ""), ("pass", ""), ("broker", ""), ("topic", "")]
        "broker" 64).1 = EspErr.ESP_OK := rfl
    have e4 : (load_from_nvs
        [("ssid", ""), ("pass", ""), ("broker", ""), ("topic", "")]
        "topic" 64).1 = EspErr.ESP_OK := rfl
    simp [e1, e2, e3, e4]
  · exact auto_mode_all_ok_connect _ b env rfl rfl rfl rfl

/-- C10 witness: concrete empty-string round trip through the wizard. -/
theorem no_nonempty_enforcement_witness :
    savesOf (wizard_mode ⟨"", "", "", ""⟩ [⟨"s", "p", fun _ => true⟩]
        "" "").2 =
      [.nvsSave "ssid" "s", .nvsSave "pass" "p",
       .nvsSave "broker" "", .nvsSave "topic" ""] :=
  (no_nonempty_enforcement [] ⟨"", "", "", ""⟩ ⟨"s", "p", fun _ => true⟩
    (fun _ => false) (by decide)).2.1

end DemMqtt
